import Mathlib

/-!
Shallow embedding of the monad-flip betting contracts (`MonadFlip`,
`CoinFlip`, `CoinFlipV2`) and verification of the specification's claims
about them.

Modelling conventions:
* `uint256` values, addresses, `bytes32` randomness and timestamps are `Nat`;
  address `0` is the zero address.  Solidity 0.8 checked subtraction is
  modelled by an explicit underflow test that reverts.
* A Solidity `mapping` is a total function `Nat → _` returning the zeroed
  struct on absent keys, exactly as the EVM does.
* An external entry point takes the caller (`sender`), the attached value
  (`value`) and, where the code reads it, the block timestamp (`now`), and
  returns `Except Err _`.  `Except.error` models `revert`: no state change.
* The oracle (`IEntropy`) is modelled at its boundary: its fee is the state
  field `entropyFee`, its sequence numbers come from the counter `nextSeq`,
  and the random value it produces is an input of the resolve operation.
* External fund transfers out of the contract decrease `balance` and are
  recorded, in source order, as `Ev.transfer` events in the trace returned
  by resolving operations; the write of the terminal wager state is the
  `Ev.setTerminal` event.  The trace order matches the statement order of
  the source function.
-/

/-- Game lifecycle states of `CoinFlip`/`CoinFlipV2`; `Pending` is the
Solidity enum value `0` and hence the default of an absent mapping entry. -/
inductive GameState where
  | Pending
  | Revealed
  | Cancelled
  deriving Repr, DecidableEq

/-- Coin sides of `MonadFlip`; `HEADS` is enum value `0`. -/
inductive CoinSide where
  | HEADS
  | TAILS
  deriving Repr, DecidableEq

/-- Revert reasons used across the three contracts. -/
inductive Err where
  | InvalidChoice
  | BetTooLow
  | BetTooHigh
  | InsufficientFee
  | Underflow
  | ZeroRandomness
  | InsufficientHouseBalance
  | GameNotPending
  | GameDoesNotExist
  | NotPlayer
  | CannotCancelYet
  | OnlyOwner
  | InsufficientFees
  | InsufficientBalance
  | TransferFailed
  | ContractPaused
  | TooManyConcurrentBets
  | AlreadySettled
  | InvalidBet
  | FeeTooHigh
  | ZeroDeposit
  deriving Repr, DecidableEq

/-- Observable ledger events of a resolving operation, in source order:
the write of the terminal state of a wager, and an external value transfer. -/
inductive Ev where
  | setTerminal (wager : Nat)
  | transfer (recipient amount : Nat)
  deriving Repr, DecidableEq

/-- Pointwise update of a Solidity mapping. -/
def updf {α : Type} (m : Nat → α) (k : Nat) (v : α) : Nat → α :=
  fun i => if i = k then v else m i

/-- True iff the call did not revert. -/
def exOk {α : Type} : Except Err α → Bool
  | .ok _ => true
  | .error _ => false

/-- State reached by a call, or `d` if it reverted. -/
def exState {α β : Type} (d : α) : Except Err (α × β) → α
  | .ok p => p.1
  | .error _ => d

namespace CoinFlip

/-- The `Game` struct of `CoinFlip` (src/unnamed/part_007 lines 53-64). -/
structure Game where
  player : Nat
  betAmount : Nat
  playerChoice : Nat
  result : Nat
  won : Bool
  payout : Nat
  timestamp : Nat
  state : GameState
  entropySequenceNumber : Nat
  userRandomness : Nat
  deriving Repr, DecidableEq

/-- The zeroed `Game`, value of an absent mapping entry. -/
def Game.zero : Game :=
  { player := 0, betAmount := 0, playerChoice := 0, result := 0, won := false
    payout := 0, timestamp := 0, state := .Pending
    entropySequenceNumber := 0, userRandomness := 0 }

/-- Contract state of `CoinFlip`: its storage variables, its balance, and
the oracle boundary (`entropyFee`, `nextSeq`). -/
structure State where
  owner : Nat
  minBet : Nat
  maxBet : Nat
  houseFees : Nat
  gameIdCounter : Nat
  balance : Nat
  entropyFee : Nat
  nextSeq : Nat
  games : Nat → Game
  seqToGame : Nat → Nat

/-- The `placeBet` entry point of `CoinFlip` (part_007 lines 110-167): the
`validBetAmount` modifier checks `msg.value` against `[minBet, maxBet]`,
then the body requires nonzero user randomness, `msg.value > entropyFee`,
and a balance covering `actualBet + potentialPayout` where
`actualBet = msg.value - entropyFee` and `potentialPayout = actualBet*190/100`.
Returns the new game id. -/
def placeBet (s : State) (sender value choice userRandomness now : Nat) :
    Except Err (State × Nat) :=
  if value < s.minBet then .error .BetTooLow
  else if s.maxBet < value then .error .BetTooHigh
  else if choice ≠ 0 ∧ choice ≠ 1 then .error .InvalidChoice
  else if userRandomness = 0 then .error .ZeroRandomness
  else if value ≤ s.entropyFee then .error .InsufficientFee
  else if s.balance + value < (value - s.entropyFee) +
      (value - s.entropyFee) * 190 / 100 then .error .InsufficientHouseBalance
  else
    .ok ({ s with
            balance := s.balance + value - s.entropyFee
            gameIdCounter := s.gameIdCounter + 1
            nextSeq := s.nextSeq + 1
            games := updf s.games s.gameIdCounter
              { player := sender, betAmount := value - s.entropyFee
                playerChoice := choice, result := 0, won := false, payout := 0
                timestamp := now, state := .Pending
                entropySequenceNumber := s.nextSeq
                userRandomness := userRandomness }
            seqToGame := updf s.seqToGame s.nextSeq s.gameIdCounter },
        s.gameIdCounter)

/-- The `revealResult` entry point of `CoinFlip` (part_007 lines 174-212):
requires the game `Pending` and existing; computes `result = random % 2`,
writes `Revealed` (source line 190) before the payout transfer (line 203);
on a win pays `betAmount + betAmount*90/100`; adds `betAmount*5/100` to
`houseFees` on both win and loss.  The random value produced by
`entropy.reveal` is the input `randomNumber`. -/
def revealResult (s : State) (gameId randomNumber : Nat) :
    Except Err (State × List Ev) :=
  if (s.games gameId).state ≠ .Pending then .error .GameNotPending
  else if (s.games gameId).player = 0 then .error .GameDoesNotExist
  else if (s.games gameId).playerChoice = randomNumber % 2 then
    if s.balance < (s.games gameId).betAmount +
        (s.games gameId).betAmount * 90 / 100 then .error .TransferFailed
    else
      .ok ({ s with
              houseFees := s.houseFees + (s.games gameId).betAmount * 5 / 100
              balance := s.balance - ((s.games gameId).betAmount +
                (s.games gameId).betAmount * 90 / 100)
              games := updf s.games gameId
                { s.games gameId with
                    result := randomNumber % 2, state := .Revealed
                    won := true
                    payout := (s.games gameId).betAmount +
                      (s.games gameId).betAmount * 90 / 100 } },
          [Ev.setTerminal gameId,
           Ev.transfer (s.games gameId).player
             ((s.games gameId).betAmount +
               (s.games gameId).betAmount * 90 / 100)])
  else
    .ok ({ s with
            houseFees := s.houseFees + (s.games gameId).betAmount * 5 / 100
            games := updf s.games gameId
              { s.games gameId with
                  result := randomNumber % 2, state := .Revealed
                  won := false } },
        [Ev.setTerminal gameId])

/-- The `cancelGame` entry point of `CoinFlip` (part_007 lines 219-231):
requires `Pending`, existing, caller = player, and
`block.timestamp > game.timestamp + 1 hours`; marks `Cancelled` and refunds
exactly `betAmount`.  Returns the refunded amount. -/
def cancelGame (s : State) (gameId sender now : Nat) :
    Except Err (State × Nat) :=
  if (s.games gameId).state ≠ .Pending then .error .GameNotPending
  else if (s.games gameId).player = 0 then .error .GameDoesNotExist
  else if sender ≠ (s.games gameId).player then .error .NotPlayer
  else if now ≤ (s.games gameId).timestamp + 3600 then .error .CannotCancelYet
  else if s.balance < (s.games gameId).betAmount then .error .TransferFailed
  else
    .ok ({ s with
            balance := s.balance - (s.games gameId).betAmount
            games := updf s.games gameId
              { s.games gameId with state := .Cancelled } },
        (s.games gameId).betAmount)

/-- The `withdrawHouseFees` entry point of `CoinFlip` (part_007 lines
245-255): owner-only, `amount ≤ houseFees`, `amount ≤ balance`. -/
def withdrawHouseFees (s : State) (sender amount : Nat) : Except Err State :=
  if sender ≠ s.owner then .error .OnlyOwner
  else if s.houseFees < amount then .error .InsufficientFees
  else if s.balance < amount then .error .InsufficientBalance
  else .ok { s with houseFees := s.houseFees - amount
                    balance := s.balance - amount }

/-- The `depositHouseFunds` entry point of `CoinFlip` (part_007 lines
236-239). -/
def depositHouseFunds (s : State) (value : Nat) : Except Err State :=
  if value = 0 then .error .ZeroDeposit
  else .ok { s with balance := s.balance + value }

end CoinFlip

namespace CoinFlipV2

/-- The `Game` struct of `CoinFlipV2` (part_007 lines 466-475). -/
structure Game where
  player : Nat
  betAmount : Nat
  playerChoice : Nat
  result : Nat
  won : Bool
  payout : Nat
  timestamp : Nat
  state : GameState
  deriving Repr, DecidableEq

/-- The zeroed `Game`, value of an absent mapping entry. -/
def Game.zero : Game :=
  { player := 0, betAmount := 0, playerChoice := 0, result := 0, won := false
    payout := 0, timestamp := 0, state := .Pending }

/-- Contract state of `CoinFlipV2`. -/
structure State where
  owner : Nat
  minBet : Nat
  maxBet : Nat
  houseFees : Nat
  gameIdCounter : Nat
  balance : Nat
  entropyFee : Nat
  nextSeq : Nat
  games : Nat → Game
  seqToGame : Nat → Nat

/-- The `placeBet` entry point of `CoinFlipV2` (part_007 lines 503-547):
validates the choice, computes `betAmount = msg.value - entropyFee` with
checked subtraction (reverts on underflow), validates
`minBet ≤ betAmount ≤ maxBet`, and requires
`balance ≥ betAmount + potentialPayout` with
`potentialPayout = betAmount*190/100` (the balance already includes
`msg.value`; the fee is forwarded to the oracle afterwards).
Returns the new game id. -/
def placeBet (s : State) (sender value choice now : Nat) :
    Except Err (State × Nat) :=
  if choice ≠ 0 ∧ choice ≠ 1 then .error .InvalidChoice
  else if value < s.entropyFee then .error .Underflow
  else if value - s.entropyFee < s.minBet then .error .BetTooLow
  else if s.maxBet < value - s.entropyFee then .error .BetTooHigh
  else if s.balance + value < (value - s.entropyFee) +
      (value - s.entropyFee) * 190 / 100 then .error .InsufficientHouseBalance
  else
    .ok ({ s with
            balance := s.balance + value - s.entropyFee
            gameIdCounter := s.gameIdCounter + 1
            nextSeq := s.nextSeq + 1
            games := updf s.games s.gameIdCounter
              { player := sender, betAmount := value - s.entropyFee
                playerChoice := choice, result := 0, won := false, payout := 0
                timestamp := now, state := .Pending }
            seqToGame := updf s.seqToGame s.nextSeq s.gameIdCounter },
        s.gameIdCounter)

/-- The `entropyCallback` of `CoinFlipV2` (part_007 lines 553-586): looks up
`gameId = sequenceToGameId[sequenceNumber]` and settles the game found there
WITHOUT checking its state or existence (the source has no `require` at all);
writes `result` and `Revealed` (lines 563-564) before the payout transfer
(line 577); pays `betAmount + betAmount*90/100` on a win; adds
`betAmount*5/100` to `houseFees` on both win and loss. -/
def entropyCallback (s : State) (sequenceNumber randomNumber : Nat) :
    Except Err (State × List Ev) :=
  if (s.games (s.seqToGame sequenceNumber)).playerChoice = randomNumber % 2 then
    if s.balance < (s.games (s.seqToGame sequenceNumber)).betAmount +
        (s.games (s.seqToGame sequenceNumber)).betAmount * 90 / 100 then
      .error .TransferFailed
    else
      .ok ({ s with
              houseFees := s.houseFees +
                (s.games (s.seqToGame sequenceNumber)).betAmount * 5 / 100
              balance := s.balance -
                ((s.games (s.seqToGame sequenceNumber)).betAmount +
                  (s.games (s.seqToGame sequenceNumber)).betAmount * 90 / 100)
              games := updf s.games (s.seqToGame sequenceNumber)
                { s.games (s.seqToGame sequenceNumber) with
                    result := randomNumber % 2, state := .Revealed
                    won := true
                    payout := (s.games (s.seqToGame sequenceNumber)).betAmount +
                      (s.games (s.seqToGame sequenceNumber)).betAmount * 90 / 100 } },
          [Ev.setTerminal (s.seqToGame sequenceNumber),
           Ev.transfer (s.games (s.seqToGame sequenceNumber)).player
             ((s.games (s.seqToGame sequenceNumber)).betAmount +
               (s.games (s.seqToGame sequenceNumber)).betAmount * 90 / 100)])
  else
    .ok ({ s with
            houseFees := s.houseFees +
              (s.games (s.seqToGame sequenceNumber)).betAmount * 5 / 100
            games := updf s.games (s.seqToGame sequenceNumber)
              { s.games (s.seqToGame sequenceNumber) with
                  result := randomNumber % 2, state := .Revealed
                  won := false } },
        [Ev.setTerminal (s.seqToGame sequenceNumber)])

/-- The `cancelGame` entry point of `CoinFlipV2` (part_007 lines 601-613):
requires `Pending`, caller = player, and
`block.timestamp > game.timestamp + 1 hours` (no existence check in this
variant); marks `Cancelled` and refunds exactly `betAmount`. -/
def cancelGame (s : State) (gameId sender now : Nat) :
    Except Err (State × Nat) :=
  if (s.games gameId).state ≠ .Pending then .error .GameNotPending
  else if sender ≠ (s.games gameId).player then .error .NotPlayer
  else if now ≤ (s.games gameId).timestamp + 3600 then .error .CannotCancelYet
  else if s.balance < (s.games gameId).betAmount then .error .TransferFailed
  else
    .ok ({ s with
            balance := s.balance - (s.games gameId).betAmount
            games := updf s.games gameId
              { s.games gameId with state := .Cancelled } },
        (s.games gameId).betAmount)

/-- The `withdrawHouseFees` entry point of `CoinFlipV2` (part_007 lines
627-638): owner-only, `amount ≤ houseFees`, `amount ≤ balance`. -/
def withdrawHouseFees (s : State) (sender amount : Nat) : Except Err State :=
  if sender ≠ s.owner then .error .OnlyOwner
  else if s.houseFees < amount then .error .InsufficientFees
  else if s.balance < amount then .error .InsufficientBalance
  else .ok { s with houseFees := s.houseFees - amount
                    balance := s.balance - amount }

/-- The `depositHouseFunds` entry point of `CoinFlipV2` (part_007 lines
618-621). -/
def depositHouseFunds (s : State) (value : Nat) : Except Err State :=
  if value = 0 then .error .ZeroDeposit
  else .ok { s with balance := s.balance + value }

/-- Potential payout of a game, as computed by `placeBet`
(part_007 line 515). -/
def potentialPayout (g : Game) : Nat := g.betAmount * 190 / 100

/-- Modelled from the spec: sum over all `Pending` wagers of their potential
payout (spec §3, House Ledger invariant).  Ranges over the ids the contract
has ever assigned. -/
def pendingPayoutSum (s : State) : Nat :=
  (Finset.range s.gameIdCounter).sum fun i =>
    if (s.games i).state = .Pending then potentialPayout (s.games i) else 0

/-- Modelled from the spec: the House Ledger invariant of §3 —
`totalBalance ≥ reservedFees` and the available balance covers every
pending wager's potential payout.  `balance` plays `totalBalance` and
`houseFees` plays `reservedFees`. -/
def houseInvariant (s : State) : Prop :=
  s.houseFees ≤ s.balance ∧ pendingPayoutSum s ≤ s.balance - s.houseFees

instance (s : State) : Decidable (houseInvariant s) := by
  unfold houseInvariant; infer_instance

end CoinFlipV2

namespace MonadFlip

/-- The `Bet` struct of `MonadFlip` (src/unnamed/part_006 lines 37-44). -/
structure Bet where
  player : Nat
  amount : Nat
  guess : CoinSide
  isSettled : Bool
  won : Bool
  payout : Nat
  deriving Repr, DecidableEq

/-- The zeroed `Bet`, value of an absent mapping entry. -/
def Bet.zero : Bet :=
  { player := 0, amount := 0, guess := .HEADS, isSettled := false
    won := false, payout := 0 }

/-- Contract state of `MonadFlip` (part_006 lines 9-50). -/
structure State where
  owner : Nat
  feePercentage : Nat
  minimumBet : Nat
  maximumBet : Nat
  paused : Bool
  maxConcurrentBets : Nat
  activeBetsCount : Nat
  balance : Nat
  entropyFee : Nat
  nextSeq : Nat
  bets : Nat → Bet

/-- The `calculatePayout` view of `MonadFlip` (part_006 lines 190-194):
`winnings = betAmount * 2`, minus `winnings * feePercentage / 10000`. -/
def calculatePayout (s : State) (betAmount : Nat) : Nat :=
  betAmount * 2 - betAmount * 2 * s.feePercentage / 10000

/-- The `placeBet` entry point of `MonadFlip` (part_006 lines 110-146):
the `validBetAmount` modifier checks `msg.value` against
`[minimumBet, maximumBet]`, then `whenNotPaused`; the body requires
`activeBetsCount < maxConcurrentBets`, nonzero user randomness, computes
`betAmount = msg.value - entropyFee` by checked subtraction, and requires
the balance (which already includes `msg.value`) to cover
`calculatePayout betAmount`.  The bet is keyed by the oracle sequence
number, which is returned. -/
def placeBet (s : State) (sender value : Nat) (guess : CoinSide)
    (userRandomness : Nat) : Except Err (State × Nat) :=
  if value < s.minimumBet then .error .BetTooLow
  else if s.maximumBet < value then .error .BetTooHigh
  else if s.paused then .error .ContractPaused
  else if s.maxConcurrentBets ≤ s.activeBetsCount then
    .error .TooManyConcurrentBets
  else if userRandomness = 0 then .error .ZeroRandomness
  else if value < s.entropyFee then .error .Underflow
  else if s.balance + value < calculatePayout s (value - s.entropyFee) then
    .error .InsufficientBalance
  else
    .ok ({ s with
            balance := s.balance + value - s.entropyFee
            nextSeq := s.nextSeq + 1
            activeBetsCount := s.activeBetsCount + 1
            bets := updf s.bets s.nextSeq
              { player := sender, amount := value - s.entropyFee
                guess := guess, isSettled := false, won := false
                payout := 0 } },
        s.nextSeq)

/-- The `entropyCallback` of `MonadFlip` (part_006 lines 149-187): requires
the bet not yet settled and existing; `result` is `HEADS` iff the random
value is even; on a win the payout transfer (source line 169) is issued
BEFORE `isSettled` is written (line 174) — the trace records that order.
The checked decrement `activeBetsCount--` (line 177) reverts on underflow. -/
def entropyCallback (s : State) (sequenceNumber randomNumber : Nat) :
    Except Err (State × List Ev) :=
  if (s.bets sequenceNumber).isSettled then .error .AlreadySettled
  else if (s.bets sequenceNumber).player = 0 then .error .InvalidBet
  else if (s.bets sequenceNumber).guess =
      (if randomNumber % 2 = 0 then CoinSide.HEADS else CoinSide.TAILS) then
    if s.balance < calculatePayout s (s.bets sequenceNumber).amount then
      .error .TransferFailed
    else if s.activeBetsCount = 0 then .error .Underflow
    else
      .ok ({ s with
              balance := s.balance -
                calculatePayout s (s.bets sequenceNumber).amount
              activeBetsCount := s.activeBetsCount - 1
              bets := updf s.bets sequenceNumber
                { s.bets sequenceNumber with
                    isSettled := true, won := true
                    payout := calculatePayout s (s.bets sequenceNumber).amount } },
          [Ev.transfer (s.bets sequenceNumber).player
             (calculatePayout s (s.bets sequenceNumber).amount),
           Ev.setTerminal sequenceNumber])
  else if s.activeBetsCount = 0 then .error .Underflow
  else
    .ok ({ s with
            activeBetsCount := s.activeBetsCount - 1
            bets := updf s.bets sequenceNumber
              { s.bets sequenceNumber with isSettled := true } },
        [Ev.setTerminal sequenceNumber])

/-- The `setFeePercentage` entry point of `MonadFlip` (part_006 lines
222-227): owner-only, rejects any value above 2000 basis points. -/
def setFeePercentage (s : State) (sender newFee : Nat) : Except Err State :=
  if sender ≠ s.owner then .error .OnlyOwner
  else if 2000 < newFee then .error .FeeTooHigh
  else .ok { s with feePercentage := newFee }

/-- The `setBetLimits` entry point of `MonadFlip` (part_006 lines 229-235). -/
def setBetLimits (s : State) (sender newMin newMax : Nat) : Except Err State :=
  if sender ≠ s.owner then .error .OnlyOwner
  else if newMin = 0 then .error .BetTooLow
  else if newMax ≤ newMin then .error .BetTooHigh
  else .ok { s with minimumBet := newMin, maximumBet := newMax }

/-- The `setMaxConcurrentBets` entry point of `MonadFlip` (part_006 lines
237-240). -/
def setMaxConcurrentBets (s : State) (sender newMax : Nat) : Except Err State :=
  if sender ≠ s.owner then .error .OnlyOwner
  else if newMax = 0 then .error .TooManyConcurrentBets
  else .ok { s with maxConcurrentBets := newMax }

/-- The `withdrawFees` entry point of `MonadFlip` (part_006 lines 242-247):
owner-only and capped only by the CONTRACT BALANCE — this contract tracks no
reserved-fee figure at all. -/
def withdrawFees (s : State) (sender amount : Nat) : Except Err State :=
  if sender ≠ s.owner then .error .OnlyOwner
  else if s.balance < amount then .error .InsufficientBalance
  else .ok { s with balance := s.balance - amount }

/-- The `addFunds` entry point of `MonadFlip` (part_006 lines 249-251). -/
def addFunds (s : State) (sender value : Nat) : Except Err State :=
  if sender ≠ s.owner then .error .OnlyOwner
  else .ok { s with balance := s.balance + value }

/-- The `pause` entry point of `MonadFlip` (part_006 lines 254-257). -/
def pause (s : State) (sender : Nat) : Except Err State :=
  if sender ≠ s.owner then .error .OnlyOwner
  else .ok { s with paused := true }

/-- The `unpause` entry point of `MonadFlip` (part_006 lines 259-262). -/
def unpause (s : State) (sender : Nat) : Except Err State :=
  if sender ≠ s.owner then .error .OnlyOwner
  else .ok { s with paused := false }

/-- The `emergencyWithdraw` entry point of `MonadFlip` (part_006 lines
264-268): owner-only, requires `paused`, drains the whole balance. -/
def emergencyWithdraw (s : State) (sender : Nat) : Except Err State :=
  if sender ≠ s.owner then .error .OnlyOwner
  else if ¬ s.paused then .error .ContractPaused
  else .ok { s with balance := 0 }

/-- The `transferOwnership` entry point of `MonadFlip` (part_006 lines
281-287). -/
def transferOwnership (s : State) (sender newOwner : Nat) : Except Err State :=
  if sender ≠ s.owner then .error .OnlyOwner
  else if newOwner = 0 then .error .InvalidBet
  else if newOwner = s.owner then .error .InvalidBet
  else .ok { s with owner := newOwner }

/-- The `receive` fallback of `MonadFlip` (part_006 line 299). -/
def receiveEther (s : State) (value : Nat) : Except Err State :=
  .ok { s with balance := s.balance + value }

/-- Constructor state of `MonadFlip` (part_006 lines 14-31, 99-102):
`feePercentage = 1000`, `minimumBet = 0.001 ether`, `maximumBet = 10 ether`,
not paused, `maxConcurrentBets = 100`, no active bets. -/
def initState (deployer initialBalance oracleFee : Nat) : State :=
  { owner := deployer, feePercentage := 1000
    minimumBet := 1000000000000000, maximumBet := 10000000000000000000
    paused := false, maxConcurrentBets := 100, activeBetsCount := 0
    balance := initialBalance, entropyFee := oracleFee, nextSeq := 0
    bets := fun _ => Bet.zero }

/-- One successful transaction of the `MonadFlip` contract: any entry point
that does not revert. -/
inductive Step : State → State → Prop where
  | placeBet (s : State) (sender value userRandomness seq : Nat)
      (guess : CoinSide) (s' : State)
      (h : placeBet s sender value guess userRandomness = .ok (s', seq)) :
      Step s s'
  | entropyCallback (s : State) (sequenceNumber randomNumber : Nat)
      (s' : State) (tr : List Ev)
      (h : entropyCallback s sequenceNumber randomNumber = .ok (s', tr)) :
      Step s s'
  | setFeePercentage (s : State) (sender newFee : Nat) (s' : State)
      (h : setFeePercentage s sender newFee = .ok s') : Step s s'
  | setBetLimits (s : State) (sender newMin newMax : Nat) (s' : State)
      (h : setBetLimits s sender newMin newMax = .ok s') : Step s s'
  | setMaxConcurrentBets (s : State) (sender newMax : Nat) (s' : State)
      (h : setMaxConcurrentBets s sender newMax = .ok s') : Step s s'
  | withdrawFees (s : State) (sender amount : Nat) (s' : State)
      (h : withdrawFees s sender amount = .ok s') : Step s s'
  | addFunds (s : State) (sender value : Nat) (s' : State)
      (h : addFunds s sender value = .ok s') : Step s s'
  | pause (s : State) (sender : Nat) (s' : State)
      (h : pause s sender = .ok s') : Step s s'
  | unpause (s : State) (sender : Nat) (s' : State)
      (h : unpause s sender = .ok s') : Step s s'
  | emergencyWithdraw (s : State) (sender : Nat) (s' : State)
      (h : emergencyWithdraw s sender = .ok s') : Step s s'
  | transferOwnership (s : State) (sender newOwner : Nat) (s' : State)
      (h : transferOwnership s sender newOwner = .ok s') : Step s s'
  | receiveEther (s : State) (value : Nat) (s' : State)
      (h : receiveEther s value = .ok s') : Step s s'

/-- States reachable from a freshly deployed `MonadFlip` contract. -/
def Reachable (deployer initialBalance oracleFee : Nat) (s : State) : Prop :=
  Relation.ReflTransGen Step (initState deployer initialBalance oracleFee) s

end MonadFlip

/-- Second component (trace or returned value) of a call, or `d` if it
reverted. -/
def exSnd {α β : Type} (d : β) : Except Err (α × β) → β
  | .ok p => p.2
  | .error _ => d

/-- Result state of a call returning only the state, or `d` if it
reverted. -/
def exVal {α : Type} (d : α) : Except Err α → α
  | .ok a => a
  | .error _ => d

/-- A freshly funded `CoinFlipV2` deployment: 190 wei of house funds, zero
oracle fee, bet limits `[1, 1000]`. -/
def c1Init : CoinFlipV2.State :=
  { owner := 1, minBet := 1, maxBet := 1000, houseFees := 0, gameIdCounter := 0
    balance := 190, entropyFee := 0, nextSeq := 0
    games := fun _ => CoinFlipV2.Game.zero, seqToGame := fun _ => 0 }

/-- Three consecutive 100-wei bets on `c1Init`. -/
def c1Run : Except Err (CoinFlipV2.State × Nat) :=
  (CoinFlipV2.placeBet c1Init 2 100 0 10).bind fun p =>
    (CoinFlipV2.placeBet p.1 3 100 0 11).bind fun q =>
      CoinFlipV2.placeBet q.1 4 100 0 12

/-- A `CoinFlipV2` state in which game 0 (player 7, stake 100) has already
been settled as a win and paid out, and the oracle mapping still points
sequence 0 at it. -/
def c2State : CoinFlipV2.State :=
  { owner := 1, minBet := 1, maxBet := 1000, houseFees := 5, gameIdCounter := 1
    balance := 300, entropyFee := 0, nextSeq := 1
    games := updf (fun _ => CoinFlipV2.Game.zero) 0
      { player := 7, betAmount := 100, playerChoice := 0, result := 0
        won := true, payout := 190, timestamp := 0, state := .Revealed }
    seqToGame := fun _ => 0 }

/-- A `CoinFlipV2` deployment on which no game has ever been placed. -/
def c4State : CoinFlipV2.State :=
  { owner := 1, minBet := 1, maxBet := 1000, houseFees := 0, gameIdCounter := 0
    balance := 50, entropyFee := 0, nextSeq := 0
    games := fun _ => CoinFlipV2.Game.zero, seqToGame := fun _ => 0 }

/-- C1: the spec claims that after every PlaceBet/Resolve/Cancel the sum of
pending potential payouts is at most `balance - houseFees`, and that
`placeBet` rejects a bet that would push the aggregate past the available
balance.  False: `CoinFlipV2.placeBet` checks only the new bet's own stake
plus payout against the raw balance, so three consecutive 100-wei bets on a
190-wei house are all accepted, after which the pending payouts total 570
against a balance of 490. -/
theorem claim_C1_counterexample :
    exOk c1Run = true ∧ ¬ CoinFlipV2.houseInvariant (exState c1Init c1Run) := by
  decide

/-- C2: the spec claims a second Resolve for the same handle, or a Resolve
on an already-settled wager, is rejected and does not pay out again.
`CoinFlipV2.entropyCallback` has no pending-state guard: delivering the
callback again for the already-settled winning game 0 of `c2State` succeeds,
emits a second 190-wei payout transfer to the player, and drops the balance
from 300 to 110. -/
theorem claim_C2_resettle_pays_again :
    (c2State.games 0).state = GameState.Revealed ∧
    exOk (CoinFlipV2.entropyCallback c2State 0 2) = true ∧
    exSnd [] (CoinFlipV2.entropyCallback c2State 0 2) =
      [Ev.setTerminal 0, Ev.transfer 7 190] ∧
    (exState c2State (CoinFlipV2.entropyCallback c2State 0 2)).balance = 110 := by
  decide

/-- C4: the spec claims a Resolve whose handle maps to no existing wager is
rejected with no state mutated.  `CoinFlipV2.entropyCallback` performs no
existence check: an unknown sequence number maps to game id 0, and the
callback succeeds and overwrites the (nonexistent) game 0's state to
`Revealed`. -/
theorem claim_C4_unknown_handle_mutates :
    (c4State.games 0).player = 0 ∧
    (c4State.games 0).state = GameState.Pending ∧
    exOk (CoinFlipV2.entropyCallback c4State 99 1) = true ∧
    ((exState c4State (CoinFlipV2.entropyCallback c4State 99 1)).games 0).state =
      GameState.Revealed := by
  decide

/-- C1 (amended): `CoinFlipV2.placeBet` enforces only a per-bet solvency
check: when a bet is accepted, the contract balance at acceptance (which
already contains `msg.value`) covers that single wager's stake plus its own
potential payout, and the wager is recorded `Pending` with stake
`msg.value - entropyFee`; the check takes no account of other pending
wagers or of `houseFees`. -/
theorem claim_C1_per_bet_check (s : CoinFlipV2.State)
    (sender value choice now : Nat)
    (h : exOk (CoinFlipV2.placeBet s sender value choice now) = true) :
    ((exState s (CoinFlipV2.placeBet s sender value choice now)).games
        s.gameIdCounter).state = GameState.Pending ∧
    ((exState s (CoinFlipV2.placeBet s sender value choice now)).games
        s.gameIdCounter).betAmount = value - s.entropyFee ∧
    (value - s.entropyFee) +
        CoinFlipV2.potentialPayout
          ((exState s (CoinFlipV2.placeBet s sender value choice now)).games
            s.gameIdCounter) ≤
      s.balance + value := by
  unfold CoinFlipV2.placeBet at h ⊢
  split_ifs at h ⊢ with h1 h2 h3 h4 h5
  · simp [exOk] at h
  · simp [exOk] at h
  · simp [exOk] at h
  · simp [exOk] at h
  · simp [exOk] at h
  · simp [exState, updf, CoinFlipV2.potentialPayout]
    omega

/-- Witness for C1 (amended): the first bet of the `c1Run` scenario. -/
theorem claim_C1_per_bet_check_witness :
    ((exState c1Init (CoinFlipV2.placeBet c1Init 2 100 0 10)).games
        c1Init.gameIdCounter).state = GameState.Pending ∧
    ((exState c1Init (CoinFlipV2.placeBet c1Init 2 100 0 10)).games
        c1Init.gameIdCounter).betAmount = 100 - c1Init.entropyFee ∧
    (100 - c1Init.entropyFee) +
        CoinFlipV2.potentialPayout
          ((exState c1Init (CoinFlipV2.placeBet c1Init 2 100 0 10)).games
            c1Init.gameIdCounter) ≤
      c1Init.balance + 100 :=
  claim_C1_per_bet_check c1Init 2 100 0 10 (by decide)

/-- A funded `CoinFlip` deployment holding one pending game: player 5,
stake 100, choice Heads (0). -/
def c3State : CoinFlip.State :=
  { owner := 1, minBet := 10, maxBet := 1000, houseFees := 0, gameIdCounter := 1
    balance := 1000, entropyFee := 5, nextSeq := 1
    games := updf (fun _ => CoinFlip.Game.zero) 0
      { player := 5, betAmount := 100, playerChoice := 0, result := 0
        won := false, payout := 0, timestamp := 0, state := .Pending
        entropySequenceNumber := 0, userRandomness := 7 }
    seqToGame := fun _ => 0 }

/-- A funded `CoinFlipV2` deployment holding one pending game: player 5,
stake 100, choice Heads (0), created at time 0. -/
def c6V2State : CoinFlipV2.State :=
  { owner := 1, minBet := 10, maxBet := 1000, houseFees := 0, gameIdCounter := 1
    balance := 1000, entropyFee := 5, nextSeq := 1
    games := updf (fun _ => CoinFlipV2.Game.zero) 0
      { player := 5, betAmount := 100, playerChoice := 0, result := 0
        won := false, payout := 0, timestamp := 0, state := .Pending }
    seqToGame := fun _ => 0 }

/-- A `MonadFlip` state holding one pending winning-side bet: player 7,
stake 100, guess HEADS, at the default 10% fee. -/
def c5State : MonadFlip.State :=
  { owner := 1, feePercentage := 1000, minimumBet := 1, maximumBet := 10000
    paused := false, maxConcurrentBets := 100, activeBetsCount := 1
    balance := 1000, entropyFee := 0, nextSeq := 1
    bets := updf (fun _ => MonadFlip.Bet.zero) 0
      { player := 7, amount := 100, guess := .HEADS, isSettled := false
        won := false, payout := 0 } }

/-- C3: the claim asserts that every winning resolve pays the stake plus
90% of the stake (1.9x) and credits exactly 5% of the stake to the reserved
fees.  False for `MonadFlip`, one of the claim's cited resolvers: its
winning payout is `calculatePayout b = 2b - 2b * feePercentage / 10000`, so
the winning 100-wei Heads bet of `c5State` is paid 180 (1.8x at the default
10% fee), not 100 + 100 * 90 / 100 = 190 — and the contract tracks no
reserved-fee figure to increase at all. -/
theorem claim_C3_counterexample :
    (c5State.bets 0).amount = 100 ∧
    (c5State.bets 0).guess = CoinSide.HEADS ∧
    exOk (MonadFlip.entropyCallback c5State 0 2) = true ∧
    ((exState c5State (MonadFlip.entropyCallback c5State 0 2)).bets 0).won =
      true ∧
    ((exState c5State (MonadFlip.entropyCallback c5State 0 2)).bets 0).payout =
      180 ∧
    ¬ (180 = 100 + 100 * 90 / 100) := by
  decide

/-- C3 (amended): in `CoinFlip.revealResult` and `CoinFlipV2.entropyCallback`
a resolve with matching parity (even = Heads = 0, odd = Tails = 1) yields
`won = true` and a payout of the stake plus 90% of the stake, the opposite
parity yields `won = false` and zero payout, and `houseFees` grows by
exactly 5% of the stake in both cases; in `MonadFlip.entropyCallback` a
winning resolve instead pays `calculatePayout b = 2b - 2b * feePercentage /
10000` (1.8x the stake at the default 10% fee), and that contract tracks no
reserved-fee figure. -/
theorem claim_C3_resolve_outcomes :
    (∀ (s : CoinFlip.State) (gameId rnd : Nat),
      (s.games gameId).state = GameState.Pending →
      (s.games gameId).player ≠ 0 →
      (s.games gameId).payout = 0 →
      (s.games gameId).betAmount + (s.games gameId).betAmount * 90 / 100 ≤
        s.balance →
      exOk (CoinFlip.revealResult s gameId rnd) = true ∧
      ((s.games gameId).playerChoice = rnd % 2 →
        ((exState s (CoinFlip.revealResult s gameId rnd)).games gameId).won =
          true ∧
        ((exState s (CoinFlip.revealResult s gameId rnd)).games
          gameId).payout =
          (s.games gameId).betAmount + (s.games gameId).betAmount * 90 / 100) ∧
      ((s.games gameId).playerChoice ≠ rnd % 2 →
        ((exState s (CoinFlip.revealResult s gameId rnd)).games gameId).won =
          false ∧
        ((exState s (CoinFlip.revealResult s gameId rnd)).games
          gameId).payout = 0) ∧
      (exState s (CoinFlip.revealResult s gameId rnd)).houseFees =
        s.houseFees + (s.games gameId).betAmount * 5 / 100) ∧
    (∀ (s : CoinFlipV2.State) (seq rnd : Nat),
      (s.games (s.seqToGame seq)).payout = 0 →
      (s.games (s.seqToGame seq)).betAmount +
        (s.games (s.seqToGame seq)).betAmount * 90 / 100 ≤ s.balance →
      exOk (CoinFlipV2.entropyCallback s seq rnd) = true ∧
      ((s.games (s.seqToGame seq)).playerChoice = rnd % 2 →
        ((exState s (CoinFlipV2.entropyCallback s seq rnd)).games
          (s.seqToGame seq)).won = true ∧
        ((exState s (CoinFlipV2.entropyCallback s seq rnd)).games
          (s.seqToGame seq)).payout =
          (s.games (s.seqToGame seq)).betAmount +
            (s.games (s.seqToGame seq)).betAmount * 90 / 100) ∧
      ((s.games (s.seqToGame seq)).playerChoice ≠ rnd % 2 →
        ((exState s (CoinFlipV2.entropyCallback s seq rnd)).games
          (s.seqToGame seq)).won = false ∧
        ((exState s (CoinFlipV2.entropyCallback s seq rnd)).games
          (s.seqToGame seq)).payout = 0) ∧
      (exState s (CoinFlipV2.entropyCallback s seq rnd)).houseFees =
        s.houseFees + (s.games (s.seqToGame seq)).betAmount * 5 / 100) ∧
    (∀ (s : MonadFlip.State) (seq rnd : Nat),
      (s.bets seq).isSettled = false →
      (s.bets seq).player ≠ 0 →
      s.activeBetsCount ≠ 0 →
      MonadFlip.calculatePayout s (s.bets seq).amount ≤ s.balance →
      (s.bets seq).guess =
        (if rnd % 2 = 0 then CoinSide.HEADS else CoinSide.TAILS) →
      exOk (MonadFlip.entropyCallback s seq rnd) = true ∧
      ((exState s (MonadFlip.entropyCallback s seq rnd)).bets seq).won =
        true ∧
      ((exState s (MonadFlip.entropyCallback s seq rnd)).bets seq).payout =
        MonadFlip.calculatePayout s (s.bets seq).amount) := by
  refine ⟨?_, ?_, ?_⟩
  · intro s gameId rnd hpend hpl hp0 hbal
    unfold CoinFlip.revealResult
    rw [if_neg (by simp [hpend]), if_neg hpl]
    by_cases h3 : (s.games gameId).playerChoice = rnd % 2
    · rw [if_pos h3, if_neg (by omega)]
      simp [exOk, exState, updf, h3]
    · rw [if_neg h3]
      simp [exOk, exState, updf, h3, hp0]
  · intro s seq rnd hp0 hbal
    unfold CoinFlipV2.entropyCallback
    by_cases h3 : (s.games (s.seqToGame seq)).playerChoice = rnd % 2
    · rw [if_pos h3, if_neg (by omega)]
      simp [exOk, exState, updf, h3]
    · rw [if_neg h3]
      simp [exOk, exState, updf, h3, hp0]
  · intro s seq rnd hset hpl hcnt hbal hguess
    unfold MonadFlip.entropyCallback
    rw [if_neg (by simp [hset]), if_neg hpl, if_pos hguess,
      if_neg (by omega), if_neg hcnt]
    simp [exOk, exState, updf]

/-- Witness for C3 (amended): resolving with the even random value 2 the
pending Heads games of `c3State` (CoinFlip), `c6V2State` (CoinFlipV2, via
sequence number 0) and `c5State` (MonadFlip). -/
theorem claim_C3_resolve_outcomes_witness :
    exOk (CoinFlip.revealResult c3State 0 2) = true ∧
    (exState c3State (CoinFlip.revealResult c3State 0 2)).houseFees =
      c3State.houseFees + (c3State.games 0).betAmount * 5 / 100 ∧
    exOk (CoinFlipV2.entropyCallback c6V2State 0 2) = true ∧
    (exState c6V2State (CoinFlipV2.entropyCallback c6V2State 0 2)).houseFees =
      c6V2State.houseFees +
        (c6V2State.games (c6V2State.seqToGame 0)).betAmount * 5 / 100 ∧
    ((exState c5State (MonadFlip.entropyCallback c5State 0 2)).bets
      0).payout = MonadFlip.calculatePayout c5State (c5State.bets 0).amount :=
  ⟨(claim_C3_resolve_outcomes.1 c3State 0 2 (by decide) (by decide)
      (by decide) (by decide)).1,
   (claim_C3_resolve_outcomes.1 c3State 0 2 (by decide) (by decide)
      (by decide) (by decide)).2.2.2,
   (claim_C3_resolve_outcomes.2.1 c6V2State 0 2 (by decide) (by decide)).1,
   (claim_C3_resolve_outcomes.2.1 c6V2State 0 2 (by decide)
      (by decide)).2.2.2,
   (claim_C3_resolve_outcomes.2.2 c5State 0 2 (by decide) (by decide)
      (by decide) (by decide) (by decide)).2.2⟩

/-- C5: the spec claims every Resolve writes the terminal ledger state
before issuing the payout transfer.  False for `MonadFlip.entropyCallback`:
resolving the pending winning bet of `c5State` issues the 180-wei payout
transfer (source line 169) before `isSettled` is written (line 174), as the
event trace records. -/
theorem claim_C5_counterexample :
    exOk (MonadFlip.entropyCallback c5State 0 2) = true ∧
    exSnd [] (MonadFlip.entropyCallback c5State 0 2) =
      [Ev.transfer 7 180, Ev.setTerminal 0] := by
  decide

/-- C5 (amended): in `CoinFlip.revealResult` and `CoinFlipV2.entropyCallback`
the wager's state is written to `Revealed` before any payout transfer is
issued (the first trace event is the terminal-state write); in
`MonadFlip.entropyCallback` the payout transfer precedes the `isSettled`
write, that contract relying on its reentrancy lock instead. -/
theorem claim_C5_state_before_transfer :
    (∀ (s : CoinFlip.State) (gameId rnd : Nat),
      exOk (CoinFlip.revealResult s gameId rnd) = true →
      (exSnd [] (CoinFlip.revealResult s gameId rnd)).head? =
        some (Ev.setTerminal gameId)) ∧
    (∀ (s : CoinFlipV2.State) (seq rnd : Nat),
      exOk (CoinFlipV2.entropyCallback s seq rnd) = true →
      (exSnd [] (CoinFlipV2.entropyCallback s seq rnd)).head? =
        some (Ev.setTerminal (s.seqToGame seq))) := by
  constructor
  · intro s gameId rnd h
    unfold CoinFlip.revealResult at h ⊢
    split_ifs at h ⊢ <;> simp_all [exOk, exSnd]
  · intro s seq rnd h
    unfold CoinFlipV2.entropyCallback at h ⊢
    split_ifs at h ⊢ <;> simp_all [exOk, exSnd]

/-- Witness for C5 (amended): the winning reveal of `c3State`'s game 0. -/
theorem claim_C5_state_before_transfer_witness :
    (exSnd [] (CoinFlip.revealResult c3State 0 2)).head? =
      some (Ev.setTerminal 0) :=
  claim_C5_state_before_transfer.1 c3State 0 2 (by decide)

/-- C6: in both `CoinFlip` and `CoinFlipV2`, `cancelGame` before the 1-hour
timeout has elapsed is always rejected (hence no state change); by a caller
other than the game's player it is always rejected; and after the timeout,
on a still-pending game by its player (with the refund covered), it succeeds,
marks the game `Cancelled` and refunds exactly the stake. -/
theorem claim_C6_cancel_policy :
    (∀ (s : CoinFlip.State) (gameId caller now : Nat),
      now ≤ (s.games gameId).timestamp + 3600 →
      exOk (CoinFlip.cancelGame s gameId caller now) = false) ∧
    (∀ (s : CoinFlip.State) (gameId caller now : Nat),
      caller ≠ (s.games gameId).player →
      exOk (CoinFlip.cancelGame s gameId caller now) = false) ∧
    (∀ (s : CoinFlip.State) (gameId caller now : Nat),
      (s.games gameId).state = GameState.Pending →
      (s.games gameId).player ≠ 0 →
      caller = (s.games gameId).player →
      (s.games gameId).timestamp + 3600 < now →
      (s.games gameId).betAmount ≤ s.balance →
      exOk (CoinFlip.cancelGame s gameId caller now) = true ∧
      exSnd 0 (CoinFlip.cancelGame s gameId caller now) =
        (s.games gameId).betAmount ∧
      ((exState s (CoinFlip.cancelGame s gameId caller now)).games
        gameId).state = GameState.Cancelled) ∧
    (∀ (s : CoinFlipV2.State) (gameId caller now : Nat),
      now ≤ (s.games gameId).timestamp + 3600 →
      exOk (CoinFlipV2.cancelGame s gameId caller now) = false) ∧
    (∀ (s : CoinFlipV2.State) (gameId caller now : Nat),
      caller ≠ (s.games gameId).player →
      exOk (CoinFlipV2.cancelGame s gameId caller now) = false) ∧
    (∀ (s : CoinFlipV2.State) (gameId caller now : Nat),
      (s.games gameId).state = GameState.Pending →
      caller = (s.games gameId).player →
      (s.games gameId).timestamp + 3600 < now →
      (s.games gameId).betAmount ≤ s.balance →
      exOk (CoinFlipV2.cancelGame s gameId caller now) = true ∧
      exSnd 0 (CoinFlipV2.cancelGame s gameId caller now) =
        (s.games gameId).betAmount ∧
      ((exState s (CoinFlipV2.cancelGame s gameId caller now)).games
        gameId).state = GameState.Cancelled) := by
  refine ⟨?_, ?_, ?_, ?_, ?_, ?_⟩
  · intro s gameId caller now hearly
    unfold CoinFlip.cancelGame
    split_ifs <;> simp [exOk]
  · intro s gameId caller now hne
    unfold CoinFlip.cancelGame
    split_ifs <;> simp [exOk]
  · intro s gameId caller now hpend hpl hc hlate hbal
    unfold CoinFlip.cancelGame
    rw [if_neg (by simp [hpend]), if_neg hpl,
      if_neg (by simp [hc]), if_neg (by omega), if_neg (by omega)]
    simp [exOk, exSnd, exState, updf]
  · intro s gameId caller now hearly
    unfold CoinFlipV2.cancelGame
    split_ifs <;> simp [exOk]
  · intro s gameId caller now hne
    unfold CoinFlipV2.cancelGame
    split_ifs <;> simp [exOk]
  · intro s gameId caller now hpend hc hlate hbal
    unfold CoinFlipV2.cancelGame
    rw [if_neg (by simp [hpend]), if_neg (by simp [hc]),
      if_neg (by omega), if_neg (by omega)]
    simp [exOk, exSnd, exState, updf]

/-- Witness for C6: on the pending games of `c3State` (CoinFlip) and
`c6V2State` (CoinFlipV2), cancelling at time 100 or by caller 9 fails, and
cancelling at time 4000 by player 5 succeeds with a 100-wei refund. -/
theorem claim_C6_cancel_policy_witness :
    exOk (CoinFlip.cancelGame c3State 0 5 100) = false ∧
    exOk (CoinFlip.cancelGame c3State 0 9 4000) = false ∧
    exOk (CoinFlip.cancelGame c3State 0 5 4000) = true ∧
    exSnd 0 (CoinFlip.cancelGame c3State 0 5 4000) = 100 ∧
    exOk (CoinFlipV2.cancelGame c6V2State 0 5 100) = false ∧
    exOk (CoinFlipV2.cancelGame c6V2State 0 9 4000) = false ∧
    exOk (CoinFlipV2.cancelGame c6V2State 0 5 4000) = true ∧
    exSnd 0 (CoinFlipV2.cancelGame c6V2State 0 5 4000) = 100 :=
  ⟨claim_C6_cancel_policy.1 c3State 0 5 100 (by decide),
   claim_C6_cancel_policy.2.1 c3State 0 9 4000 (by decide),
   (claim_C6_cancel_policy.2.2.1 c3State 0 5 4000 (by decide) (by decide)
     (by decide) (by decide) (by decide)).1,
   (claim_C6_cancel_policy.2.2.1 c3State 0 5 4000 (by decide) (by decide)
     (by decide) (by decide) (by decide)).2.1,
   claim_C6_cancel_policy.2.2.2.1 c6V2State 0 5 100 (by decide),
   claim_C6_cancel_policy.2.2.2.2.1 c6V2State 0 9 4000 (by decide),
   (claim_C6_cancel_policy.2.2.2.2.2 c6V2State 0 5 4000 (by decide) (by decide)
     (by decide) (by decide)).1,
   (claim_C6_cancel_policy.2.2.2.2.2 c6V2State 0 5 4000 (by decide) (by decide)
     (by decide) (by decide)).2.1⟩

/-- A `CoinFlip` deployment with `minBet = 10`, `maxBet = 100` and an oracle
fee of 5. -/
def c7State : CoinFlip.State :=
  { owner := 1, minBet := 10, maxBet := 100, houseFees := 0, gameIdCounter := 0
    balance := 50, entropyFee := 5, nextSeq := 0
    games := fun _ => CoinFlip.Game.zero, seqToGame := fun _ => 0 }

/-- C7: the spec claims a bet whose STAKE (the escrowed amount net of the
oracle fee) lies below the configured minimum is always rejected.  False for
`CoinFlip`: its `validBetAmount` modifier checks `msg.value`, fee included,
so `placeBet` with `msg.value = 10 = minBet` and fee 5 is accepted and
records a game whose stake is 5, below the minimum. -/
theorem claim_C7_counterexample :
    exOk (CoinFlip.placeBet c7State 2 10 0 7 0) = true ∧
    ((exState c7State (CoinFlip.placeBet c7State 2 10 0 7 0)).games
      0).betAmount = 5 ∧
    5 < c7State.minBet := by
  decide

/-- C7 (amended): `CoinFlipV2.placeBet` rejects whenever the net stake
`msg.value - entropyFee` is below `minBet` or above `maxBet`; `CoinFlip` and
`MonadFlip` apply the range check to the gross `msg.value` (fee included),
so for them rejection is guaranteed only when `msg.value` itself is out of
range, and a net stake below the minimum can be accepted.  Rejection means
revert: no funds kept, no wager recorded. -/
theorem claim_C7_range_check :
    (∀ (s : CoinFlipV2.State) (sender value choice now : Nat),
      value - s.entropyFee < s.minBet ∨ s.maxBet < value - s.entropyFee →
      exOk (CoinFlipV2.placeBet s sender value choice now) = false) ∧
    (∀ (s : CoinFlip.State) (sender value choice rnd now : Nat),
      value < s.minBet ∨ s.maxBet < value →
      exOk (CoinFlip.placeBet s sender value choice rnd now) = false) ∧
    (∀ (s : MonadFlip.State) (sender value rnd : Nat) (guess : CoinSide),
      value < s.minimumBet ∨ s.maximumBet < value →
      exOk (MonadFlip.placeBet s sender value guess rnd) = false) := by
  refine ⟨?_, ?_, ?_⟩
  · intro s sender value choice now hrange
    unfold CoinFlipV2.placeBet
    split_ifs <;> simp [exOk] <;> omega
  · intro s sender value choice rnd now hrange
    unfold CoinFlip.placeBet
    split_ifs <;> simp [exOk] <;> omega
  · intro s sender value rnd guess hrange
    unfold MonadFlip.placeBet
    split_ifs <;> simp [exOk] <;> omega

/-- Witness for C7 (amended): a 5-wei gross bet on `c6V2State`
(`minBet = 10`, fee 5, net stake 0) and on `c7State` are both rejected. -/
theorem claim_C7_range_check_witness :
    exOk (CoinFlipV2.placeBet c6V2State 2 5 0 0) = false ∧
    exOk (CoinFlip.placeBet c7State 2 5 0 7 0) = false :=
  ⟨claim_C7_range_check.1 c6V2State 2 5 0 0 (by decide),
   claim_C7_range_check.2.1 c7State 2 5 0 7 0 (by decide)⟩

/-- A `MonadFlip` state holding 500 wei, of which 100 are the committed
stake of the pending bet 0 of player 7. -/
def c8State : MonadFlip.State :=
  { owner := 1, feePercentage := 1000, minimumBet := 1, maximumBet := 10000
    paused := false, maxConcurrentBets := 100, activeBetsCount := 1
    balance := 500, entropyFee := 0, nextSeq := 1
    bets := updf (fun _ => MonadFlip.Bet.zero) 0
      { player := 7, amount := 100, guess := .HEADS, isSettled := false
        won := false, payout := 0 } }

/-- C8: the spec claims fee withdrawal is capped at the accumulated reserved
fees and never touches player-committed balance.  False for
`MonadFlip.withdrawFees`: the contract tracks no reserved-fee figure and
caps the withdrawal only by the contract balance, so the owner drains all
500 wei of `c8State` — including the 100-wei stake of the still-pending
bet 0. -/
theorem claim_C8_counterexample :
    (c8State.bets 0).isSettled = false ∧
    (c8State.bets 0).amount = 100 ∧
    exOk (MonadFlip.withdrawFees c8State 1 500) = true ∧
    (exVal c8State (MonadFlip.withdrawFees c8State 1 500)).balance = 0 := by
  decide

/-- C8 (amended): `CoinFlip.withdrawHouseFees` and
`CoinFlipV2.withdrawHouseFees` succeed only for the owner and only for an
amount at most `houseFees` (and at most the balance);
`MonadFlip.withdrawFees` is owner-only but capped solely by the contract
balance, so it can pay out player-committed funds. -/
theorem claim_C8_withdraw_caps :
    (∀ (s : CoinFlip.State) (sender amount : Nat),
      exOk (CoinFlip.withdrawHouseFees s sender amount) = true →
      sender = s.owner ∧ amount ≤ s.houseFees ∧ amount ≤ s.balance) ∧
    (∀ (s : CoinFlipV2.State) (sender amount : Nat),
      exOk (CoinFlipV2.withdrawHouseFees s sender amount) = true →
      sender = s.owner ∧ amount ≤ s.houseFees ∧ amount ≤ s.balance) ∧
    (∀ (s : MonadFlip.State) (sender amount : Nat),
      exOk (MonadFlip.withdrawFees s sender amount) = true →
      sender = s.owner ∧ amount ≤ s.balance) := by
  refine ⟨?_, ?_, ?_⟩
  · intro s sender amount h
    unfold CoinFlip.withdrawHouseFees at h
    split_ifs at h <;> simp [exOk] at h
    omega
  · intro s sender amount h
    unfold CoinFlipV2.withdrawHouseFees at h
    split_ifs at h <;> simp [exOk] at h
    omega
  · intro s sender amount h
    unfold MonadFlip.withdrawFees at h
    split_ifs at h <;> simp [exOk] at h
    omega

/-- Witness for C8 (amended): successful withdrawals on `c2State`
(CoinFlipV2, 5 wei of fees) and `c8State` (MonadFlip). -/
theorem claim_C8_withdraw_caps_witness :
    (1 = c2State.owner ∧ 5 ≤ c2State.houseFees ∧ 5 ≤ c2State.balance) ∧
    (1 = c8State.owner ∧ 500 ≤ c8State.balance) :=
  ⟨claim_C8_withdraw_caps.2.1 c2State 1 5 (by decide),
   claim_C8_withdraw_caps.2.2 c8State 1 500 (by decide)⟩

/-- A `CoinFlipV2` deployment whose oracle fee is 50. -/
def c9V2State : CoinFlipV2.State :=
  { owner := 1, minBet := 1, maxBet := 1000, houseFees := 0, gameIdCounter := 0
    balance := 500, entropyFee := 50, nextSeq := 0
    games := fun _ => CoinFlipV2.Game.zero, seqToGame := fun _ => 0 }

/-- A `MonadFlip` deployment whose oracle fee is 50. -/
def c9MFState : MonadFlip.State :=
  { owner := 1, feePercentage := 1000, minimumBet := 1, maximumBet := 10000
    paused := false, maxConcurrentBets := 100, activeBetsCount := 0
    balance := 500, entropyFee := 50, nextSeq := 0
    bets := fun _ => MonadFlip.Bet.zero }

/-- C9: in all three contracts, `placeBet` with an attached value strictly
below the oracle's entropy fee always reverts, so no game record is ever
created: `CoinFlip` by its explicit `betAmount > entropyFee` check, and
`CoinFlipV2`/`MonadFlip` by the checked underflow of
`msg.value - entropyFee`. -/
theorem claim_C9_value_below_fee_rejected :
    (∀ (s : CoinFlip.State) (sender value choice rnd now : Nat),
      value < s.entropyFee →
      exOk (CoinFlip.placeBet s sender value choice rnd now) = false) ∧
    (∀ (s : CoinFlipV2.State) (sender value choice now : Nat),
      value < s.entropyFee →
      exOk (CoinFlipV2.placeBet s sender value choice now) = false) ∧
    (∀ (s : MonadFlip.State) (sender value rnd : Nat) (guess : CoinSide),
      value < s.entropyFee →
      exOk (MonadFlip.placeBet s sender value guess rnd) = false) := by
  refine ⟨?_, ?_, ?_⟩
  · intro s sender value choice rnd now hlt
    unfold CoinFlip.placeBet
    split_ifs <;> simp [exOk] <;> omega
  · intro s sender value choice now hlt
    unfold CoinFlipV2.placeBet
    split_ifs <;> simp [exOk] <;> omega
  · intro s sender value rnd guess hlt
    unfold MonadFlip.placeBet
    split_ifs <;> simp [exOk] <;> omega

/-- Witness for C9: a 30-wei bet against a 50-wei oracle fee fails in all
three contracts. -/
theorem claim_C9_value_below_fee_rejected_witness :
    exOk (CoinFlip.placeBet c7State 2 3 0 7 0) = false ∧
    exOk (CoinFlipV2.placeBet c9V2State 2 30 0 0) = false ∧
    exOk (MonadFlip.placeBet c9MFState 2 30 CoinSide.HEADS 7) = false :=
  ⟨claim_C9_value_below_fee_rejected.1 c7State 2 3 0 7 0 (by decide),
   claim_C9_value_below_fee_rejected.2.1 c9V2State 2 30 0 0 (by decide),
   claim_C9_value_below_fee_rejected.2.2 c9MFState 2 30 7 CoinSide.HEADS
     (by decide)⟩

/-- Every successful `MonadFlip` transaction preserves the bound
`feePercentage ≤ 2000`: only `setFeePercentage` writes the field, and it
rejects values above 2000. -/
theorem MonadFlip.step_fee_bound {s s' : MonadFlip.State}
    (h : MonadFlip.Step s s') (hfee : s.feePercentage ≤ 2000) :
    s'.feePercentage ≤ 2000 := by
  cases h with
  | placeBet _ _ _ _ _ _ hop =>
      unfold MonadFlip.placeBet at hop
      split_ifs at hop <;> simp at hop
      obtain ⟨h1, -⟩ := hop
      subst h1
      exact hfee
  | entropyCallback _ _ _ _ hop =>
      unfold MonadFlip.entropyCallback at hop
      split_ifs at hop <;> simp at hop
      all_goals (obtain ⟨h1, -⟩ := hop; subst h1; exact hfee)
  | setFeePercentage _ _ _ hop =>
      unfold MonadFlip.setFeePercentage at hop
      split_ifs at hop <;> simp at hop
      subst hop
      simp
      omega
  | setBetLimits _ _ _ _ hop =>
      unfold MonadFlip.setBetLimits at hop
      split_ifs at hop <;> simp at hop
      subst hop
      exact hfee
  | setMaxConcurrentBets _ _ _ hop =>
      unfold MonadFlip.setMaxConcurrentBets at hop
      split_ifs at hop <;> simp at hop
      subst hop
      exact hfee
  | withdrawFees _ _ _ hop =>
      unfold MonadFlip.withdrawFees at hop
      split_ifs at hop <;> simp at hop
      subst hop
      exact hfee
  | addFunds _ _ _ hop =>
      unfold MonadFlip.addFunds at hop
      split_ifs at hop <;> simp at hop
      subst hop
      exact hfee
  | pause _ _ hop =>
      unfold MonadFlip.pause at hop
      split_ifs at hop <;> simp at hop
      subst hop
      exact hfee
  | unpause _ _ hop =>
      unfold MonadFlip.unpause at hop
      split_ifs at hop <;> simp at hop
      subst hop
      exact hfee
  | emergencyWithdraw _ _ hop =>
      unfold MonadFlip.emergencyWithdraw at hop
      split_ifs at hop <;> simp at hop
      subst hop
      exact hfee
  | transferOwnership _ _ _ hop =>
      unfold MonadFlip.transferOwnership at hop
      split_ifs at hop <;> simp at hop
      subst hop
      exact hfee
  | receiveEther _ _ hop =>
      unfold MonadFlip.receiveEther at hop
      simp at hop
      subst hop
      exact hfee

/-- The fee bound is inductive along any sequence of successful
transactions. -/
theorem MonadFlip.rtg_fee_bound {s0 s : MonadFlip.State}
    (h : Relation.ReflTransGen MonadFlip.Step s0 s)
    (h0 : s0.feePercentage ≤ 2000) : s.feePercentage ≤ 2000 := by
  induction h with
  | refl => exact h0
  | tail _ hstep ih => exact MonadFlip.step_fee_bound hstep ih

/-- The fee bound holds in every reachable `MonadFlip` state. -/
theorem MonadFlip.reachable_fee_bound (deployer bal fee : Nat)
    (s : MonadFlip.State) (h : MonadFlip.Reachable deployer bal fee s) :
    s.feePercentage ≤ 2000 :=
  MonadFlip.rtg_fee_bound h (by norm_num [MonadFlip.initState])

/-- With `feePercentage ≤ 2000`, a winning payout is at least 1.6 times the
bet (`16 * b ≤ 10 * payout`). -/
theorem MonadFlip.payout_lower_bound (s : MonadFlip.State)
    (hfee : s.feePercentage ≤ 2000) (b : Nat) :
    16 * b ≤ 10 * MonadFlip.calculatePayout s b := by
  unfold MonadFlip.calculatePayout
  have hx : b * 2 * s.feePercentage / 10000 * 10000 ≤ b * 2 * 2000 :=
    le_trans (Nat.div_mul_le_self _ _) (Nat.mul_le_mul_left _ hfee)
  omega

/-- C10: in every reachable `MonadFlip` state (deployed with
`feePercentage = 1000`, mutated only through the contract's entry points, of
which `setFeePercentage` rejects values above 2000), `feePercentage ≤ 2000`,
and hence `calculatePayout b = 2b - (2b * feePercentage) / 10000` is at
least 1.6 times the bet amount. -/
theorem claim_C10_fee_cap_payout (deployer bal fee : Nat)
    (s : MonadFlip.State) (h : MonadFlip.Reachable deployer bal fee s) :
    s.feePercentage ≤ 2000 ∧
    ∀ b, 16 * b ≤ 10 * MonadFlip.calculatePayout s b :=
  ⟨MonadFlip.reachable_fee_bound deployer bal fee s h,
   fun b => MonadFlip.payout_lower_bound s
     (MonadFlip.reachable_fee_bound deployer bal fee s h) b⟩

/-- Witness for C10: the freshly deployed contract, and a 5-wei bet. -/
theorem claim_C10_fee_cap_payout_witness :
    (MonadFlip.initState 1 0 0).feePercentage ≤ 2000 ∧
    16 * 5 ≤ 10 * MonadFlip.calculatePayout (MonadFlip.initState 1 0 0) 5 :=
  ⟨(claim_C10_fee_cap_payout 1 0 0 (MonadFlip.initState 1 0 0)
      Relation.ReflTransGen.refl).1,
   (claim_C10_fee_cap_payout 1 0 0 (MonadFlip.initState 1 0 0)
      Relation.ReflTransGen.refl).2 5⟩
